import Mathlib

/-
Verification of the a2a_min task lifecycle and streaming bridge.

The visible sources provide the abstraction-layer types
(a2a_min/abstraction/types.py, a2a_min/types.py), the base agent
(a2a_min/abstraction/agent.py), the middlewares
(a2a_min/abstraction/middleware.py, a2a_min/abstraction/server.py) and the
wire client (a2a_min/client/client.py).  The base package (a2a_min/base:
core protocol types, server, task manager) and the abstraction task
manager / client wrappers are not among the visible sources; where a
definition depends on them it is modelled from the spec and marked so in
its doc comment.
-/

namespace A2aMin

/-- Modelled from the spec: the task state enumeration of the base types
module (a2a_min/base/types.py, not among the visible sources).  States per
spec section 4.1. -/
inductive TaskState where
  | submitted
  | working
  | inputRequired
  | completed
  | failed
  | canceled
deriving DecidableEq, Repr, Fintype

/-- Modelled from the spec: a message part is polymorphic over Text, File
and Data variants (base types module not among the visible sources). -/
inductive Part where
  | text (text : String)
  | file (uri : String) (mimeType : String)
  | data (payload : List (String × String))
deriving DecidableEq, Repr

/-- Modelled from the spec: message roles. -/
inductive Role where
  | user
  | agent
deriving DecidableEq, Repr

/-- Modelled from the spec: a message is a role plus an ordered sequence of
parts. -/
structure Message where
  role : Role
  parts : List Part
deriving DecidableEq, Repr

/-- Modelled from the spec: an artifact chunk (base types module not among
the visible sources). -/
structure Artifact where
  name : Option String
  parts : List Part
  index : Nat
  append : Bool
  lastChunk : Bool
deriving DecidableEq, Repr

/-- Modelled from the spec: task status is a state plus the most recent
agent-authored message and a timestamp. -/
structure TaskStatus where
  state : TaskState
  message : Option Message
  timestamp : Nat
deriving DecidableEq, Repr

/-- Modelled from the spec: one unit of work. -/
structure Task where
  id : String
  sessionId : Option String
  status : TaskStatus
  history : List Message
  artifacts : List Artifact
deriving DecidableEq, Repr

/-- From a2a_min/types.py and a2a_min/abstraction/types.py: one unit of
agent output.  The dict-valued metadata field is modelled as an optional
association list. -/
structure AgentInvocationResult where
  message : Message
  is_complete : Bool
  requires_input : Bool
  metadata : Option (List (String × String))
deriving DecidableEq, Repr

/-- From a2a_min/types.py: the agent_msg class method, building a result
whose message is a single agent-role text part. -/
def AgentInvocationResult.agent_msg (message : String) (is_complete : Bool)
    (requires_input : Bool) : AgentInvocationResult :=
  { message := { role := Role.agent, parts := [Part.text message] }
  , is_complete := is_complete
  , requires_input := requires_input
  , metadata := none }

/-- From a2a_min/abstraction/types.py: an update from a streaming task. -/
structure TaskUpdate where
  status : Option TaskState
  artifact : Option Artifact
  is_final : Bool
  metadata : Option (List (String × String))
deriving DecidableEq, Repr

/-- Errors of the task manager and state machine, per spec section 7. -/
inductive TaskError where
  | taskNotFound
  | invalidTransition
  | taskNotCancelable
  | duplicateActiveTask
  | protocolViolation
deriving DecidableEq, Repr

/-- Modelled from the spec: terminal states are completed, failed and
canceled. -/
def TaskState.isTerminal : TaskState → Bool
  | TaskState.completed => true
  | TaskState.failed => true
  | TaskState.canceled => true
  | _ => false

/-- The six states named by the spec. -/
def allowedStates : List TaskState :=
  [TaskState.submitted, TaskState.working, TaskState.inputRequired,
   TaskState.completed, TaskState.failed, TaskState.canceled]

/-- Modelled from the spec: the transition table of section 4.1
(submitted to working; working to input-required or any terminal state;
input-required back to working or forward to any terminal state; no edge
leaves a terminal state). -/
def validTransition : TaskState → TaskState → Bool
  | TaskState.submitted, TaskState.working => true
  | TaskState.working, TaskState.inputRequired => true
  | TaskState.working, TaskState.completed => true
  | TaskState.working, TaskState.failed => true
  | TaskState.working, TaskState.canceled => true
  | TaskState.inputRequired, TaskState.working => true
  | TaskState.inputRequired, TaskState.completed => true
  | TaskState.inputRequired, TaskState.failed => true
  | TaskState.inputRequired, TaskState.canceled => true
  | _, _ => false

/-- Modelled from the spec: a transition request that matches an edge of the
table moves the task to the target state; any other request fails with
InvalidTransition and must not mutate the task. -/
def applyTransition (t : Task) (target : TaskState) : Except TaskError Task :=
  if validTransition t.status.state target then
    Except.ok { t with status := { t.status with state := target } }
  else
    Except.error TaskError.invalidTransition

/-- Fold a sequence of transition requests over a task; a failing request
leaves the task unchanged (spec: must not mutate the task). -/
def applyRequests (t : Task) : List TaskState → Task
  | [] => t
  | r :: rs =>
    match applyTransition t r with
    | Except.ok t2 => applyRequests t2 rs
    | Except.error _ => applyRequests t rs

/-- Modelled from the spec: the terminal state an invocation result maps to
(input-required when the result requires input, completed otherwise). -/
def terminalStateFor (r : AgentInvocationResult) : TaskState :=
  if r.requires_input then TaskState.inputRequired else TaskState.completed

/-- The working-state intermediate update the adapter emits for an item with
is_complete false. -/
def workingUpdate : TaskUpdate :=
  { status := some TaskState.working, artifact := none
  , is_final := false, metadata := none }

/-- The terminal update the adapter emits for the item with is_complete
true. -/
def finalUpdateFor (r : AgentInvocationResult) : TaskUpdate :=
  { status := some (terminalStateFor r), artifact := none
  , is_final := true, metadata := none }

/-- Modelled from the spec: the Invocation Result Adapter over an
incremental capability (the adapter in a2a_min/abstraction/task_manager.py
is not among the visible sources).  Each intermediate item (is_complete
false) yields a working-state update with is_final false; the item with
is_complete true yields the terminal update with is_final true and any
excess items are discarded. -/
def adaptIncremental : List AgentInvocationResult → List TaskUpdate
  | [] => []
  | r :: rs =>
    if r.is_complete then
      [finalUpdateFor r]
    else
      workingUpdate :: adaptIncremental rs

/-- Modelled from the spec: the status update produced for a synchronous
capability carries the terminal state, the result's message, and is_final
true (spec section 4.2). -/
structure StatusUpdate where
  state : TaskState
  message : Option Message
  is_final : Bool
deriving DecidableEq, Repr

/-- Modelled from the spec: the Invocation Result Adapter over a synchronous
capability: invoke once, map the single result to a single final status
update carrying the result's message. -/
def adaptSync (r : AgentInvocationResult) : StatusUpdate :=
  { state := terminalStateFor r
  , message := some r.message
  , is_final := true }

/-- Modelled from the spec: the task the Task Manager creates when it
accepts a submission — state submitted, history containing the user
message. -/
def newTask (taskId : String) (sessionId : String) (userMsg : Message) : Task :=
  { id := taskId
  , sessionId := some sessionId
  , status := { state := TaskState.submitted, message := none, timestamp := 0 }
  , history := [userMsg]
  , artifacts := [] }

/-- Modelled from the spec: applying a status update to a task sets the
status and appends the agent-authored message to the history. -/
def applyStatusUpdate (t : Task) (u : StatusUpdate) : Task :=
  { t with
    status := { state := u.state, message := u.message
              , timestamp := t.status.timestamp + 1 }
  , history := t.history ++ (match u.message with
      | some m => [m]
      | none => []) }

/-- Modelled from the spec: the unary submit path of the Task Manager for a
synchronous capability — create the task, invoke the agent once, apply the
single final status update. -/
def submitSync (invoke : String → String → AgentInvocationResult)
    (taskId : String) (sessionId : String) (query : String) : Task :=
  let userMsg : Message := { role := Role.user, parts := [Part.text query] }
  applyStatusUpdate (newTask taskId sessionId userMsg)
    (adaptSync (invoke query sessionId))

/-- A task table keyed by task id. -/
def TaskStore : Type := List (String × Task)

/-- Look a task up by id. -/
def findTask (store : TaskStore) (tid : String) : Option Task :=
  match store with
  | [] => none
  | (k, t) :: rest => if k = tid then some t else findTask rest tid

/-- Replace the entry for a task id. -/
def updateTask (store : TaskStore) (tid : String) (t2 : Task) : TaskStore :=
  match store with
  | [] => []
  | (k, t) :: rest =>
    if k = tid then (k, t2) :: rest else (k, t) :: updateTask rest tid t2

/-- Modelled from the spec: cancel(task_id) — fails with TaskNotFound when
the id is unknown; succeeds only when the task is non-terminal,
transitioning it to canceled; fails with TaskNotCancelable when the task is
already terminal (spec section 4.3). -/
def cancel (store : TaskStore) (tid : String) :
    Except TaskError (TaskStore × Task) :=
  match findTask store tid with
  | none => Except.error TaskError.taskNotFound
  | some t =>
    if t.status.state.isTerminal then
      Except.error TaskError.taskNotCancelable
    else
      let t2 : Task :=
        { t with status := { t.status with state := TaskState.canceled } }
      Except.ok (updateTask store tid t2, t2)

/-- The task table after a cancel request: the new table on success, the old
table unchanged on failure. -/
def cancelApply (store : TaskStore) (tid : String) : TaskStore :=
  match cancel store tid with
  | Except.ok (s2, _) => s2
  | Except.error _ => store

/-- Modelled from the spec: the result carried by one streamed frame — a
status-update or artifact-update shape, each tagged with a final flag
(spec section 6; the event types live in the base types module, not among
the visible sources). -/
inductive StreamingResult where
  | statusUpdate (taskId : String) (state : TaskState) (final : Bool)
      (metadata : Option (List (String × String)))
  | artifactUpdate (taskId : String) (artifact : Artifact) (final : Bool)
      (metadata : Option (List (String × String)))
deriving DecidableEq, Repr

/-- The typed payload of one SSE frame, as yielded by
A2AClient.send_task_streaming in a2a_min/client/client.py. -/
structure SendTaskStreamingResponse where
  rpcId : Nat
  result : StreamingResult
deriving DecidableEq, Repr

/-- A TaskUpdate is wire-shaped when exactly one of its status and artifact
fields is set (spec section 3: either a status change or an artifact
emission). -/
def TaskUpdate.wellFormed (u : TaskUpdate) : Bool :=
  u.status.isSome != u.artifact.isSome

/-- Modelled from the spec: producer-side serialization of one TaskUpdate
into the framed event payload (the producer lives in the base server, not
among the visible sources).  An update that is neither a status change nor
an artifact emission has no frame. -/
def serializeUpdate (rpcId : Nat) (taskId : String) (u : TaskUpdate) :
    Option SendTaskStreamingResponse :=
  match u.status, u.artifact with
  | some s, none =>
    some { rpcId := rpcId
         , result := StreamingResult.statusUpdate taskId s u.is_final u.metadata }
  | none, some a =>
    some { rpcId := rpcId
         , result := StreamingResult.artifactUpdate taskId a u.is_final u.metadata }
  | _, _ => none

/-- Modelled from the spec: consumer-side conversion of one typed frame
payload back into a TaskUpdate (the conversion lives in the abstraction
client wrapper, not among the visible sources). -/
def deserializeUpdate (r : SendTaskStreamingResponse) : TaskUpdate :=
  match r.result with
  | StreamingResult.statusUpdate _ s fin md =>
    { status := some s, artifact := none, is_final := fin, metadata := md }
  | StreamingResult.artifactUpdate _ a fin md =>
    { status := none, artifact := some a, is_final := fin, metadata := md }

/-- One SSE frame as the consumer loop sees it: either its data parses as
JSON into a typed payload, or json.loads fails on it. -/
inductive RawFrame where
  | frame (resp : SendTaskStreamingResponse)
  | malformed
deriving DecidableEq, Repr

/-- The exceptions A2AClient raises: A2AClientHTTPError with a status code,
A2AClientJSONError, and the pydantic validation error that client.py does
not catch. -/
inductive ClientError where
  | a2aHTTPError (code : Nat)
  | a2aJSONError
  | validationError
deriving DecidableEq, Repr

/-- From a2a_min/client/client.py, send_task_streaming: iterate the SSE
events of the connection in order, parse each data payload with json.loads
and yield the typed response; a json.JSONDecodeError is re-raised as
A2AClientJSONError, ending the generator, and a connection-level
httpx.RequestError is re-raised as A2AClientHTTPError 400.  The input is
the list of frames the connection delivers before it closes or errors, plus
whether it ends in a connection error; the output is the list of yielded
payloads and the error raised, if any. -/
def send_task_streaming (frames : List RawFrame) (connectionError : Bool) :
    List SendTaskStreamingResponse × Option ClientError :=
  match frames with
  | [] =>
    ([], if connectionError then some (ClientError.a2aHTTPError 400) else none)
  | RawFrame.frame r :: rest =>
    let out := send_task_streaming rest connectionError
    (r :: out.1, out.2)
  | RawFrame.malformed :: _ => ([], some ClientError.a2aJSONError)

/-- The whole bridge round trip: serialize a TaskUpdate sequence to frames,
run the consumer loop over them, convert the yielded payloads back to
TaskUpdate values. -/
def bridgeRoundTrip (rpcId : Nat) (taskId : String) (us : List TaskUpdate) :
    List TaskUpdate :=
  let frames := (us.filterMap (serializeUpdate rpcId taskId)).map RawFrame.frame
  ((send_task_streaming frames false).1).map deserializeUpdate

/-- The body of a unary HTTP response, as the client decodes it: not valid
JSON (json.loads raises), valid JSON that fails the pydantic envelope
validation, or a valid envelope of the operation's response type. -/
inductive ResponseBody (α : Type) where
  | invalidJson : ResponseBody α
  | invalidEnvelope : ResponseBody α
  | envelope (r : α) : ResponseBody α
deriving DecidableEq, Repr

/-- A unary HTTP response: status code plus body. -/
structure HttpResponse (α : Type) where
  status : Nat
  body : ResponseBody α
deriving DecidableEq, Repr

/-- Whether a status code is a 2xx success (httpx raise_for_status raises
for every non-2xx code). -/
def is2xx (status : Nat) : Bool := 200 ≤ status && status ≤ 299

/-- From a2a_min/client/client.py, _send_request: POST the request, call
raise_for_status (httpx.HTTPStatusError on non-2xx becomes
A2AClientHTTPError carrying the status code), then response.json()
(json.JSONDecodeError becomes A2AClientJSONError); on success return the
decoded JSON body. -/
def send_request (resp : HttpResponse α) :
    Except ClientError (ResponseBody α) :=
  if is2xx resp.status then
    match resp.body with
    | ResponseBody.invalidJson => Except.error ClientError.a2aJSONError
    | b => Except.ok b
  else
    Except.error (ClientError.a2aHTTPError resp.status)

/-- The pydantic model construction wrapped around _send_request in each
unary operation: a JSON body that is not a valid envelope raises a
ValidationError, which client.py does not catch. -/
def parseEnvelope (b : ResponseBody α) : Except ClientError α :=
  match b with
  | ResponseBody.envelope r => Except.ok r
  | _ => Except.error ClientError.validationError

/-- From a2a_min/client/client.py: the shared shape of every unary client
operation — _send_request followed by the pydantic envelope construction. -/
def clientUnaryOp (resp : HttpResponse α) : Except ClientError α :=
  match send_request resp with
  | Except.ok b => parseEnvelope b
  | Except.error e => Except.error e

/-- Modelled from the spec: the push-notification config carried by the
callback operations. -/
structure TaskPushNotificationConfig where
  id : String
  url : String
deriving DecidableEq, Repr

/-- Modelled from the spec: the JSON-RPC envelope for tasks/send — its
result is a Task. -/
structure SendTaskResponse where
  rpcId : Nat
  result : Option Task
deriving DecidableEq, Repr

/-- Modelled from the spec: the JSON-RPC envelope for tasks/get. -/
structure GetTaskResponse where
  rpcId : Nat
  result : Option Task
deriving DecidableEq, Repr

/-- Modelled from the spec: the JSON-RPC envelope for tasks/cancel. -/
structure CancelTaskResponse where
  rpcId : Nat
  result : Option Task
deriving DecidableEq, Repr

/-- Modelled from the spec: the envelope for tasks/pushNotification/set. -/
structure SetTaskPushNotificationResponse where
  rpcId : Nat
  result : Option TaskPushNotificationConfig
deriving DecidableEq, Repr

/-- Modelled from the spec: the envelope for tasks/pushNotification/get. -/
structure GetTaskPushNotificationResponse where
  rpcId : Nat
  result : Option TaskPushNotificationConfig
deriving DecidableEq, Repr

/-- From a2a_min/client/client.py: send_task builds the request and parses
the SendTaskResponse envelope around _send_request. -/
def send_task : HttpResponse SendTaskResponse → Except ClientError SendTaskResponse :=
  clientUnaryOp

/-- From a2a_min/client/client.py: get_task. -/
def get_task : HttpResponse GetTaskResponse → Except ClientError GetTaskResponse :=
  clientUnaryOp

/-- From a2a_min/client/client.py: cancel_task. -/
def cancel_task : HttpResponse CancelTaskResponse → Except ClientError CancelTaskResponse :=
  clientUnaryOp

/-- From a2a_min/client/client.py: set_task_callback. -/
def set_task_callback : HttpResponse SetTaskPushNotificationResponse →
    Except ClientError SetTaskPushNotificationResponse :=
  clientUnaryOp

/-- From a2a_min/client/client.py: get_task_callback. -/
def get_task_callback : HttpResponse GetTaskPushNotificationResponse →
    Except ClientError GetTaskPushNotificationResponse :=
  clientUnaryOp

/-- Modelled from the spec: the capabilities record built by
BaseAgent.capabilities (the AgentCapabilities type lives in the base types
module, not among the visible sources; its fields are those agent.py
constructs). -/
structure AgentCapabilities where
  streaming : Bool
  pushNotifications : Bool
  stateTransitionHistory : Bool
deriving DecidableEq, Repr

/-- Modelled from the spec: the skill record built by BaseAgent.skills. -/
structure AgentSkill where
  id : String
  name : String
  description : String
  tags : List String
  examples : List String
deriving DecidableEq, Repr

/-- Modelled from the spec: the agent card built by
BaseAgent.get_agent_card. -/
structure AgentCard where
  name : String
  description : String
  url : String
  version : String
  capabilities : AgentCapabilities
  skills : List AgentSkill
  defaultInputModes : List String
  defaultOutputModes : List String
deriving DecidableEq, Repr

/-- An agent object as the capabilities property of
a2a_min/abstraction/agent.py observes it: its name and description, its
invoke method, and the stream attribute that the hasattr/callable probe
inspects (none when the object has no callable stream attribute). -/
structure PyAgent where
  name : String
  description : String
  invoke : String → String → AgentInvocationResult
  streamAttr : Option (String → String → List AgentInvocationResult)

/-- From a2a_min/abstraction/agent.py: the hasattr/callable probe inside
BaseAgent.capabilities. -/
def hasCallableStream (a : PyAgent) : Bool := a.streamAttr.isSome

/-- From a2a_min/abstraction/agent.py: BaseAgent.capabilities — streaming
is set from the hasattr/callable probe, the other two flags are false. -/
def PyAgent.capabilities (a : PyAgent) : AgentCapabilities :=
  { streaming := hasCallableStream a
  , pushNotifications := false
  , stateTransitionHistory := false }

/-- From a2a_min/abstraction/agent.py: BaseAgent.skills. -/
def PyAgent.skills (a : PyAgent) : List AgentSkill :=
  [{ id := String.append a.name.toLower "_skill"
   , name := a.name
   , description := a.description
   , tags := []
   , examples := [] }]

/-- From a2a_min/abstraction/agent.py: BaseAgent.get_agent_card — the card
embeds the agent's capabilities. -/
def PyAgent.get_agent_card (a : PyAgent) (url : String) : AgentCard :=
  { name := a.name
  , description := a.description
  , url := url
  , version := "1.0.0"
  , capabilities := a.capabilities
  , skills := a.skills
  , defaultInputModes := ["text"]
  , defaultOutputModes := ["text"] }

/-- Modelled from the spec: the Task Manager consumes the card's streaming
capability flag to pick unary versus streaming delivery (the task manager
is not among the visible sources).  True selects streaming delivery. -/
def chooseStreamingDelivery (card : AgentCard) : Bool :=
  card.capabilities.streaming

/-- From a2a_min/abstraction/agent.py: the default BaseAgent.stream body —
yield the invoke result, once.  The stream is modelled as the finite list
of yielded items. -/
def defaultStream (invoke : String → String → AgentInvocationResult) :
    String → String → List AgentInvocationResult :=
  fun query session_id => [invoke query session_id]

/-- A BaseAgent subclass that does not override stream: BaseAgent itself
defines the default stream method, so the stream attribute is present and
callable. -/
def mkBaseAgent (name : String) (description : String)
    (invoke : String → String → AgentInvocationResult) : PyAgent :=
  { name := name
  , description := description
  , invoke := invoke
  , streamAttr := some (defaultStream invoke) }

/-- From a2a_min/abstraction/server.py: the base Middleware.process_request
returns the request unchanged. -/
def Middleware.process_request (request : α) : α := request

/-- From a2a_min/abstraction/server.py: the base Middleware.process_response
returns the response unchanged. -/
def Middleware.process_response (response : α) : α := response

/-- The logger state of LoggingMiddleware: the lines written with
logger.info. -/
structure LoggingMiddleware where
  log : List String
deriving DecidableEq, Repr

/-- From a2a_min/abstraction/middleware.py: LoggingMiddleware
process_request logs the request and passes it through; toStr stands for
the f-string rendering of the value. -/
def LoggingMiddleware.process_request (toStr : α → String)
    (m : LoggingMiddleware) (request : α) : LoggingMiddleware × α :=
  ({ log := m.log ++ [String.append "Request: " (toStr request)] }, request)

/-- From a2a_min/abstraction/middleware.py: LoggingMiddleware
process_response logs the response and passes it through. -/
def LoggingMiddleware.process_response (toStr : α → String)
    (m : LoggingMiddleware) (response : α) : LoggingMiddleware × α :=
  ({ log := m.log ++ [String.append "Response: " (toStr response)] }, response)

/-- The state of MetricsMiddleware: the start_times dict keyed by Python
object id, and the metric values emitted through metrics_callback. -/
structure MetricsMiddleware where
  start_times : List (Nat × Nat)
  emitted : List (String × Nat)
deriving DecidableEq, Repr

/-- From a2a_min/abstraction/middleware.py: MetricsMiddleware
process_request records the current time under id(request) and passes the
request through; idOf stands for Python's id, now for time.time(). -/
def MetricsMiddleware.process_request (idOf : α → Nat) (now : Nat)
    (m : MetricsMiddleware) (request : α) : MetricsMiddleware × α :=
  ({ m with start_times :=
      (idOf request, now) :: m.start_times.filter (fun p => p.1 != idOf request) }
  , request)

/-- From a2a_min/abstraction/middleware.py: MetricsMiddleware
process_response looks id(response) up in start_times; when present it
emits the elapsed request_time metric and deletes the entry; either way the
response is passed through. -/
def MetricsMiddleware.process_response (idOf : α → Nat) (now : Nat)
    (m : MetricsMiddleware) (response : α) : MetricsMiddleware × α :=
  match m.start_times.lookup (idOf response) with
  | some t0 =>
    ({ start_times := m.start_times.filter (fun p => p.1 != idOf response)
     , emitted := m.emitted ++ [("request_time", now - t0)] }
    , response)
  | none => (m, response)

/-- The state of DebugMiddleware: the events handed to debug_callback. -/
structure DebugMiddleware (α : Type) where
  events : List (String × α)

/-- From a2a_min/abstraction/middleware.py: DebugMiddleware process_request
invokes the debug callback and passes the request through. -/
def DebugMiddleware.process_request (m : DebugMiddleware α) (request : α) :
    DebugMiddleware α × α :=
  ({ events := m.events ++ [("request", request)] }, request)

/-- From a2a_min/abstraction/middleware.py: DebugMiddleware process_response
invokes the debug callback and passes the response through. -/
def DebugMiddleware.process_response (m : DebugMiddleware α) (response : α) :
    DebugMiddleware α × α :=
  ({ events := m.events ++ [("response", response)] }, response)

/-- A sample task in the initial submitted state. -/
def submittedTask : Task :=
  { id := "t1"
  , sessionId := none
  , status := { state := TaskState.submitted, message := none, timestamp := 0 }
  , history := []
  , artifacts := [] }

/-- A sample task in the terminal completed state. -/
def completedTask : Task :=
  { id := "t3"
  , sessionId := none
  , status := { state := TaskState.completed, message := none, timestamp := 3 }
  , history := []
  , artifacts := [] }

/-- A sample task in the non-terminal working state. -/
def workingTask : Task :=
  { id := "t4"
  , sessionId := none
  , status := { state := TaskState.working, message := none, timestamp := 1 }
  , history := []
  , artifacts := [] }

/-- A sample task store holding a completed and a working task. -/
def sampleStore : TaskStore := [("t3", completedTask), ("t4", workingTask)]

/-- A sample intermediate invocation result. -/
def sampleStep1 : AgentInvocationResult :=
  AgentInvocationResult.agent_msg "step one" false false

/-- Another sample intermediate invocation result. -/
def sampleStep2 : AgentInvocationResult :=
  AgentInvocationResult.agent_msg "step two" false false

/-- A sample final invocation result. -/
def sampleFinal : AgentInvocationResult :=
  AgentInvocationResult.agent_msg "done" true false

/-- A sample synchronous capability for the submit scenario: is_complete
true, requires_input false. -/
def sampleInvoke : String → String → AgentInvocationResult :=
  fun _ _ => AgentInvocationResult.agent_msg "Hi there" true false

/-- A sample artifact chunk. -/
def sampleArtifact : Artifact :=
  { name := some "out", parts := [Part.text "chunk"], index := 0
  , append := false, lastChunk := true }

/-- A sample well-formed status update. -/
def sampleStatusUpdate : TaskUpdate :=
  { status := some TaskState.working, artifact := none
  , is_final := false, metadata := none }

/-- A sample well-formed final artifact update. -/
def sampleArtifactUpdate : TaskUpdate :=
  { status := none, artifact := some sampleArtifact
  , is_final := true, metadata := none }

/-- A sample streamed frame payload. -/
def sampleResp1 : SendTaskStreamingResponse :=
  { rpcId := 1
  , result := StreamingResult.statusUpdate "t2" TaskState.working false none }

/-- Another sample streamed frame payload. -/
def sampleResp2 : SendTaskStreamingResponse :=
  { rpcId := 1
  , result := StreamingResult.statusUpdate "t2" TaskState.completed true none }

/-- A sample cancel envelope. -/
def sampleCancelResponse : CancelTaskResponse :=
  { rpcId := 1, result := some completedTask }

/- Theorems. -/

/-- No transition leaves a terminal state. -/
lemma terminal_no_transition (s target : TaskState)
    (h : s.isTerminal = true) : validTransition s target = false := by
  revert h
  cases s <;> cases target <;> decide

/-- Every task state is one of the six states named by the spec. -/
lemma mem_allowedStates (s : TaskState) : s ∈ allowedStates := by
  cases s <;> decide

/-- Applying any request sequence to a terminal-state task leaves it
unchanged. -/
lemma applyRequests_terminal (t : Task) (h : t.status.state.isTerminal = true) :
    ∀ rs : List TaskState, applyRequests t rs = t := by
  intro rs
  induction rs with
  | nil => rfl
  | cons r rs ih =>
    unfold applyRequests applyTransition
    rw [terminal_no_transition t.status.state r h]
    simpa using ih

/-- Claim C2: every state reached from a submitted task by a sequence of
transition requests is one of the six states of the spec, and once a task
is in a terminal state every further transition attempt fails with
InvalidTransition and leaves the task unchanged. -/
theorem c2_state_machine (t0 : Task) (rs : List TaskState) (t : Task)
    (s : TaskState) (rs2 : List TaskState)
    (h0 : t0.status.state = TaskState.submitted)
    (ht : t.status.state.isTerminal = true) :
    (applyRequests t0 rs).status.state ∈ allowedStates
    ∧ applyTransition t s = Except.error TaskError.invalidTransition
    ∧ applyRequests t rs2 = t := by
  refine ⟨mem_allowedStates _, ?_, applyRequests_terminal t ht rs2⟩
  unfold applyTransition
  rw [terminal_no_transition t.status.state s ht]
  simp

/-- Witness for C2 at a concrete submitted task, request sequence and
completed task. -/
theorem c2_state_machine_witness :
    (applyRequests submittedTask
        [TaskState.working, TaskState.completed]).status.state ∈ allowedStates
    ∧ applyTransition completedTask TaskState.working
        = Except.error TaskError.invalidTransition
    ∧ applyRequests completedTask [TaskState.working] = completedTask :=
  c2_state_machine submittedTask [TaskState.working, TaskState.completed]
    completedTask TaskState.working [TaskState.working] rfl rfl

/-- The adapter over an item sequence whose only completed item is the
last one emits one working update per intermediate item followed by the
terminal update. -/
lemma adaptIncremental_append (init : List AgentInvocationResult)
    (last : AgentInvocationResult)
    (h1 : ∀ r ∈ init, r.is_complete = false)
    (h2 : last.is_complete = true) :
    adaptIncremental (init ++ [last])
      = init.map (fun _ => workingUpdate) ++ [finalUpdateFor last] := by
  induction init with
  | nil => simp [adaptIncremental, h2]
  | cons r init ih =>
    have hr : r.is_complete = false := h1 r (List.mem_cons_self r init)
    have hrest : ∀ x ∈ init, x.is_complete = false :=
      fun x hx => h1 x (List.mem_cons_of_mem r hx)
    simp [adaptIncremental, hr, ih hrest]

/-- Claim C1: for an incremental capability output of N items in which
is_complete is true only on the last, the adapter emits exactly N updates
in the capability's order — a working-state non-final update for each of
the first N-1 items and the terminal update, with is_final true, for the
last. -/
theorem c1_incremental_adapter (init : List AgentInvocationResult)
    (last : AgentInvocationResult)
    (h1 : ∀ r ∈ init, r.is_complete = false)
    (h2 : last.is_complete = true) :
    adaptIncremental (init ++ [last])
      = init.map (fun _ => workingUpdate) ++ [finalUpdateFor last]
    ∧ (adaptIncremental (init ++ [last])).length = init.length + 1
    ∧ workingUpdate.is_final = false
    ∧ workingUpdate.status = some TaskState.working
    ∧ (finalUpdateFor last).is_final = true := by
  have he := adaptIncremental_append init last h1 h2
  refine ⟨he, ?_, rfl, rfl, rfl⟩
  rw [he]
  simp

/-- Witness for C1 at a concrete three-item capability output. -/
theorem c1_incremental_adapter_witness :
    adaptIncremental ([sampleStep1, sampleStep2] ++ [sampleFinal])
      = [sampleStep1, sampleStep2].map (fun _ => workingUpdate)
          ++ [finalUpdateFor sampleFinal]
    ∧ (adaptIncremental ([sampleStep1, sampleStep2] ++ [sampleFinal])).length
        = [sampleStep1, sampleStep2].length + 1
    ∧ workingUpdate.is_final = false
    ∧ workingUpdate.status = some TaskState.working
    ∧ (finalUpdateFor sampleFinal).is_final = true :=
  c1_incremental_adapter [sampleStep1, sampleStep2] sampleFinal
    (by decide) (by decide)

/-- Claim C9: an agent that does not override stream inherits the default
BaseAgent.stream, which yields exactly one item, the invoke result; the
incremental capability of such an agent is the singleton of its
synchronous capability. -/
theorem c9_default_stream_is_invoke
    (invoke : String → String → AgentInvocationResult)
    (query session_id : String) :
    defaultStream invoke query session_id = [invoke query session_id]
    ∧ (defaultStream invoke query session_id).length = 1
    ∧ (defaultStream invoke query session_id).head? = some (invoke query session_id) :=
  ⟨rfl, rfl, rfl⟩

/-- Claim C8: the streaming capability flag is the hasattr/callable probe
of the stream attribute, it is embedded unchanged in the agent card, the
delivery choice consumes exactly that flag, and a BaseAgent subclass that
keeps the default stream method always advertises streaming. -/
theorem c8_streaming_capability_flag (a : PyAgent) (url : String)
    (name descr : String) (invoke : String → String → AgentInvocationResult) :
    (a.get_agent_card url).capabilities.streaming = hasCallableStream a
    ∧ hasCallableStream a = a.streamAttr.isSome
    ∧ a.capabilities.streaming = a.streamAttr.isSome
    ∧ chooseStreamingDelivery (a.get_agent_card url) = hasCallableStream a
    ∧ hasCallableStream (mkBaseAgent name descr invoke) = true
    ∧ ((mkBaseAgent name descr invoke).get_agent_card url).capabilities.streaming = true :=
  ⟨rfl, rfl, rfl, rfl, rfl, rfl⟩

/-- Claim C10: every provided middleware stage returns its request and
response arguments unchanged; the effects are confined to the log, the
start-times table, the emitted metrics and the debug events. -/
theorem c10_middleware_identity (α : Type) (x : α) (toStr : α → String)
    (idOf : α → Nat) (now1 now2 : Nat)
    (lm : LoggingMiddleware) (mm : MetricsMiddleware) (dm : DebugMiddleware α) :
    Middleware.process_request x = x
    ∧ Middleware.process_response x = x
    ∧ (LoggingMiddleware.process_request toStr lm x).2 = x
    ∧ (LoggingMiddleware.process_response toStr lm x).2 = x
    ∧ (MetricsMiddleware.process_request idOf now1 mm x).2 = x
    ∧ (MetricsMiddleware.process_response idOf now2 mm x).2 = x
    ∧ (DebugMiddleware.process_request dm x).2 = x
    ∧ (DebugMiddleware.process_response dm x).2 = x := by
  refine ⟨rfl, rfl, rfl, rfl, rfl, ?_, rfl, rfl⟩
  unfold MetricsMiddleware.process_response
  cases mm.start_times.lookup (idOf x) <;> rfl

/-- Claim C5: the synchronous adapter maps the single invocation result to
one final status update carrying the result's message, with terminal state
input-required exactly when requires_input is set; submitting a task whose
invoke returns is_complete true and requires_input false yields a
completed task with a two-message history. -/
theorem c5_sync_adapter (r : AgentInvocationResult)
    (invoke : String → String → AgentInvocationResult)
    (taskId sessionId query : String)
    (hc : (invoke query sessionId).is_complete = true)
    (hr : (invoke query sessionId).requires_input = false) :
    (adaptSync r).is_final = true
    ∧ (adaptSync r).message = some r.message
    ∧ (adaptSync r).state
        = (if r.requires_input then TaskState.inputRequired else TaskState.completed)
    ∧ (submitSync invoke taskId sessionId query).status.state = TaskState.completed
    ∧ (submitSync invoke taskId sessionId query).history.length = 2
    ∧ (submitSync invoke taskId sessionId query).history
        = [{ role := Role.user, parts := [Part.text query] },
           (invoke query sessionId).message] := by
  refine ⟨rfl, rfl, rfl, ?_, ?_, ?_⟩ <;>
    simp [submitSync, applyStatusUpdate, adaptSync, newTask, terminalStateFor, hr]

/-- Witness for C5 at the concrete submit scenario: task t1, message
Hello, a capability returning is_complete true and requires_input
false. -/
theorem c5_sync_adapter_witness :
    (adaptSync (sampleInvoke "Hello" "s1")).is_final = true
    ∧ (adaptSync (sampleInvoke "Hello" "s1")).message
        = some (sampleInvoke "Hello" "s1").message
    ∧ (adaptSync (sampleInvoke "Hello" "s1")).state
        = (if (sampleInvoke "Hello" "s1").requires_input then TaskState.inputRequired
           else TaskState.completed)
    ∧ (submitSync sampleInvoke "t1" "s1" "Hello").status.state = TaskState.completed
    ∧ (submitSync sampleInvoke "t1" "s1" "Hello").history.length = 2
    ∧ (submitSync sampleInvoke "t1" "s1" "Hello").history
        = [{ role := Role.user, parts := [Part.text "Hello"] },
           (sampleInvoke "Hello" "s1").message] :=
  c5_sync_adapter (sampleInvoke "Hello" "s1") sampleInvoke "t1" "s1" "Hello" rfl rfl

/-- Claim C7: cancel succeeds exactly on an existing non-terminal task,
transitioning it to canceled; on a terminal task it fails with
TaskNotCancelable leaving the store and the task untouched; on an unknown
id it fails with TaskNotFound. -/
theorem c7_cancel_semantics (store : TaskStore) (tid tidMissing : String)
    (t : Task)
    (hfind : findTask store tid = some t)
    (hmiss : findTask store tidMissing = none) :
    (t.status.state.isTerminal = false →
      ∃ t2, cancel store tid = Except.ok (updateTask store tid t2, t2)
        ∧ t2.status.state = TaskState.canceled ∧ t2.id = t.id)
    ∧ (t.status.state.isTerminal = true →
      cancel store tid = Except.error TaskError.taskNotCancelable
      ∧ cancelApply store tid = store
      ∧ findTask (cancelApply store tid) tid = some t)
    ∧ cancel store tidMissing = Except.error TaskError.taskNotFound := by
  refine ⟨?_, ?_, by simp [cancel, hmiss]⟩
  · intro hnt
    refine ⟨{ t with status := { t.status with state := TaskState.canceled } },
      ?_, rfl, rfl⟩
    simp [cancel, hfind, hnt]
  · intro ht
    have hc : cancel store tid = Except.error TaskError.taskNotCancelable := by
      simp [cancel, hfind, ht]
    exact ⟨hc, by simp [cancelApply, hc], by simp [cancelApply, hc, hfind]⟩

/-- Witness for C7 on a concrete store: cancel of the completed task t3
fails and changes nothing, and an unknown id reports TaskNotFound. -/
theorem c7_cancel_semantics_witness :
    (completedTask.status.state.isTerminal = false →
      ∃ t2, cancel sampleStore "t3" = Except.ok (updateTask sampleStore "t3" t2, t2)
        ∧ t2.status.state = TaskState.canceled ∧ t2.id = completedTask.id)
    ∧ (completedTask.status.state.isTerminal = true →
      cancel sampleStore "t3" = Except.error TaskError.taskNotCancelable
      ∧ cancelApply sampleStore "t3" = sampleStore
      ∧ findTask (cancelApply sampleStore "t3") "t3" = some completedTask)
    ∧ cancel sampleStore "nope" = Except.error TaskError.taskNotFound :=
  c7_cancel_semantics sampleStore "t3" "nope" completedTask (by decide) (by decide)

/-- A well-formed update serializes to a frame payload that deserializes
back to the same update. -/
lemma roundTripUpdate (rpcId : Nat) (tid : String) (u : TaskUpdate)
    (h : u.wellFormed = true) :
    ∃ r, serializeUpdate rpcId tid u = some r ∧ deserializeUpdate r = u := by
  obtain ⟨st, ar, fin, md⟩ := u
  match st, ar with
  | some s, none => exact ⟨_, rfl, rfl⟩
  | none, some a => exact ⟨_, rfl, rfl⟩
  | none, none => simp [TaskUpdate.wellFormed] at h
  | some s, some a => simp [TaskUpdate.wellFormed] at h

/-- The consumer loop yields every frame of an error-free connection, in
order, and raises nothing. -/
lemma consume_frames (rs : List SendTaskStreamingResponse) :
    send_task_streaming (rs.map RawFrame.frame) false = (rs, none) := by
  induction rs with
  | nil => rfl
  | cons r rs ih => simp [send_task_streaming, ih]

/-- Serializing a well-formed update sequence and deserializing the frames
recovers the sequence. -/
lemma serialize_then_deserialize (rpcId : Nat) (tid : String)
    (us : List TaskUpdate) (h : ∀ u ∈ us, u.wellFormed = true) :
    (us.filterMap (serializeUpdate rpcId tid)).map deserializeUpdate = us := by
  induction us with
  | nil => rfl
  | cons u us ih =>
    obtain ⟨r, hr, hd⟩ :=
      roundTripUpdate rpcId tid u (h u (List.mem_cons_self u us))
    have ih2 := ih (fun x hx => h x (List.mem_cons_of_mem u hx))
    simp [List.filterMap_cons, hr, hd, ih2]

/-- Claim C3: serializing each TaskUpdate of a well-formed sequence as one
framed event and running the consumer loop over the frames yields exactly
the original sequence in order; the consumer raises nothing and ends only
when the connection closes after the final frame. -/
theorem c3_bridge_round_trip (rpcId : Nat) (tid : String)
    (us : List TaskUpdate) (h : ∀ u ∈ us, u.wellFormed = true) :
    bridgeRoundTrip rpcId tid us = us
    ∧ (send_task_streaming
        ((us.filterMap (serializeUpdate rpcId tid)).map RawFrame.frame) false).2
      = none
    ∧ (send_task_streaming
        ((us.filterMap (serializeUpdate rpcId tid)).map RawFrame.frame) false).1.length
      = us.length := by
  have hmap := serialize_then_deserialize rpcId tid us h
  have hcons := consume_frames (us.filterMap (serializeUpdate rpcId tid))
  refine ⟨?_, ?_, ?_⟩
  · simp [bridgeRoundTrip, hcons, hmap]
  · simp [hcons]
  · rw [hcons]
    have hlen := congrArg List.length hmap
    simpa using hlen

/-- Witness for C3 on a concrete two-update sequence, one status update and
one final artifact update. -/
theorem c3_bridge_round_trip_witness :
    bridgeRoundTrip 1 "t2" [sampleStatusUpdate, sampleArtifactUpdate]
      = [sampleStatusUpdate, sampleArtifactUpdate]
    ∧ (send_task_streaming
        (([sampleStatusUpdate, sampleArtifactUpdate].filterMap
          (serializeUpdate 1 "t2")).map RawFrame.frame) false).2
      = none
    ∧ (send_task_streaming
        (([sampleStatusUpdate, sampleArtifactUpdate].filterMap
          (serializeUpdate 1 "t2")).map RawFrame.frame) false).1.length
      = [sampleStatusUpdate, sampleArtifactUpdate].length :=
  c3_bridge_round_trip 1 "t2" [sampleStatusUpdate, sampleArtifactUpdate] (by decide)

/-- Counterexample to C4 as stated: on the frame sequence good, malformed,
good, the consumer loop raises A2AClientJSONError after the first frame
and the frame behind the malformed one is never delivered — the remainder
of the sequence does not continue. -/
theorem c4_counterexample :
    send_task_streaming
        [RawFrame.frame sampleResp1, RawFrame.malformed, RawFrame.frame sampleResp2]
        false
      = ([sampleResp1], some ClientError.a2aJSONError)
    ∧ sampleResp2 ∉ (send_task_streaming
        [RawFrame.frame sampleResp1, RawFrame.malformed, RawFrame.frame sampleResp2]
        false).1 := by
  refine ⟨rfl, ?_⟩
  decide

/-- Claim C4 as amended: a malformed frame makes the consumer raise
A2AClientJSONError, terminating the sequence after the frames before it;
with no malformed frame the sequence ends with A2AClientHTTPError exactly
when the connection itself errors, and cleanly otherwise. -/
theorem c4_json_error_terminates (pre : List SendTaskStreamingResponse)
    (rest : List RawFrame) (connErr : Bool) :
    send_task_streaming
        (pre.map RawFrame.frame ++ RawFrame.malformed :: rest) connErr
      = (pre, some ClientError.a2aJSONError)
    ∧ send_task_streaming (pre.map RawFrame.frame) true
      = (pre, some (ClientError.a2aHTTPError 400))
    ∧ send_task_streaming (pre.map RawFrame.frame) false = (pre, none) := by
  refine ⟨?_, ?_, consume_frames pre⟩
  · induction pre with
    | nil => rfl
    | cons r pre ih => simp [send_task_streaming, ih]
  · induction pre with
    | nil => rfl
    | cons r pre ih => simp [send_task_streaming, ih]

/-- Counterexample to C6 as stated: a 2xx response whose body is valid JSON
but not the expected envelope makes cancel_task raise the pydantic
validation error, which is not A2AClientJSONError. -/
theorem c6_counterexample :
    cancel_task { status := 200, body := ResponseBody.invalidEnvelope }
      = Except.error ClientError.validationError
    ∧ ClientError.validationError ≠ ClientError.a2aJSONError := by
  exact ⟨rfl, by decide⟩

/-- Claim C6 as amended: every unary client operation fails with
A2AClientHTTPError exactly when the status is not 2xx, with
A2AClientJSONError exactly when the status is 2xx and the body is not
valid JSON, with the uncaught validation error exactly when the body is
JSON but not the expected envelope, and returns the parsed envelope
otherwise; the five operations all share this behaviour. -/
theorem c6_unary_error_mapping (α : Type) (resp : HttpResponse α) (r : α)
    (r1 : HttpResponse SendTaskResponse) (r2 : HttpResponse GetTaskResponse)
    (r3 : HttpResponse CancelTaskResponse)
    (r4 : HttpResponse SetTaskPushNotificationResponse)
    (r5 : HttpResponse GetTaskPushNotificationResponse) :
    (clientUnaryOp resp = Except.error (ClientError.a2aHTTPError resp.status)
      ↔ is2xx resp.status = false)
    ∧ (clientUnaryOp resp = Except.error ClientError.a2aJSONError
      ↔ (is2xx resp.status = true ∧ resp.body = ResponseBody.invalidJson))
    ∧ (clientUnaryOp resp = Except.error ClientError.validationError
      ↔ (is2xx resp.status = true ∧ resp.body = ResponseBody.invalidEnvelope))
    ∧ (clientUnaryOp resp = Except.ok r
      ↔ (is2xx resp.status = true ∧ resp.body = ResponseBody.envelope r))
    ∧ send_task r1 = clientUnaryOp r1
    ∧ get_task r2 = clientUnaryOp r2
    ∧ cancel_task r3 = clientUnaryOp r3
    ∧ set_task_callback r4 = clientUnaryOp r4
    ∧ get_task_callback r5 = clientUnaryOp r5 := by
  obtain ⟨status, body⟩ := resp
  refine ⟨?_, ?_, ?_, ?_, rfl, rfl, rfl, rfl, rfl⟩ <;>
    cases h2 : is2xx status <;> cases body <;>
      simp [clientUnaryOp, send_request, parseEnvelope, h2]

end A2aMin
